import Mathlib

/-!
Verification of the route-avoidance optimization engine
(`optimized_routing.py`, `enhanced_navigation.py`).

Shallow embedding conventions:
* Python floats are modelled as rationals (`ℚ`); the claims under study are
  about control flow, list structure and exact guard arithmetic, none of
  which hinge on float rounding.
* `geopy.distance.geodesic(a, b).meters` is an external library function;
  it is modelled as an abstract parameter `d : Dist` (meters).  Kilometre
  readings in the source divide by 1000.
* `math.sin` / `math.cos` are abstract parameters `msin mcos : ℚ → ℚ`;
  `math.pi` is a parameter `piQ`; `math.radians x = x * π / 180` is computed
  from `piQ`.
* The first ~450 lines of `optimized_routing.py` are a commented-out older
  engine; only the active engine (from `class Location` onwards) is embedded.
-/

namespace RouteOpt

/-- A latitude/longitude pair, as the tuples `(lat, lon)` used throughout. -/
abbrev Point : Type := ℚ × ℚ

/-- Abstract model of `geodesic(a, b).meters`. -/
abbrev Dist : Type := Point → Point → ℚ

/-- `class Location` from `optimized_routing.py`. -/
structure Location where
  lat : ℚ
  lon : ℚ
  name : String
deriving DecidableEq, Repr

/-- `class Blockage` from `optimized_routing.py`. -/
structure Blockage where
  lat : ℚ
  lon : ℚ
  radius : ℚ
  description : String
deriving DecidableEq, Repr

/-- The center of a blockage as a `Point`. -/
def Blockage.center (b : Blockage) : Point := (b.lat, b.lon)

/-- One entry of the `conflict_points` list built by
`calculate_route_conflicts`. -/
structure ConflictPoint where
  index : ℕ
  point : Point
  blockage : Blockage
  distance_to_center : ℚ
deriving DecidableEq, Repr

/-- The dict returned by `calculate_route_conflicts`.  The early-return dict
(`route` or `blockages` empty) omits the last three keys; we model it with
those fields zero, and no embedded claim depends on them in that branch. -/
structure ConflictReport where
  has_conflicts : Bool
  conflict_points : List ConflictPoint
  conflict_percentage : ℚ
  total_points : ℕ
  conflict_length : ℚ
  total_length : ℚ
deriving DecidableEq, Repr

/-- The sample point at `ratio = j / 4` along segment `(a, b)`:
`check_lat = point_a[0] + (point_b[0] - point_a[0]) * ratio` and likewise
for longitude. -/
def checkPoint (a b : Point) (j : ℕ) : Point :=
  ((a.1 + (b.1 - a.1) * ((j : ℚ) / 4)), (a.2 + (b.2 - a.2) * ((j : ℚ) / 4)))

/-- The inner `for blockage in blockages` loop of `calculate_route_conflicts`:
first blockage whose center is within `radius + 150` metres of `p`,
together with that distance. -/
def findBlockageHit (d : Dist) (p : Point) : List Blockage → Option (Blockage × ℚ)
  | [] => none
  | b :: bs =>
    let dd := d p b.center
    if dd ≤ b.radius + 150 then some (b, dd) else findBlockageHit d p bs

/-- The `for j in range(5)` loop: first sample ratio index (from the given
list of indices) whose sample point hits some blockage; returns the sample
point and the hit. -/
def findSampleHit (d : Dist) (a b : Point) (bs : List Blockage) :
    List ℕ → Option (Point × Blockage × ℚ)
  | [] => none
  | j :: js =>
    let p := checkPoint a b j
    match findBlockageHit d p bs with
    | some hit => some (p, hit)
    | none => findSampleHit d a b bs js

/-- The sample-ratio indices `j ∈ range(5)`, giving ratios `0, 1/4, 2/4, 3/4, 1`. -/
def sampleIdxs : List ℕ := [0, 1, 2, 3, 4]

/-- First conflict hit on the segment `(a, b)` (the combined two inner loops
with their `break`s). -/
def segmentHit (d : Dist) (bs : List Blockage) (a b : Point) :
    Option (Point × Blockage × ℚ) :=
  findSampleHit d a b bs sampleIdxs

/-- The main `for i in range(len(route) - 1)` loop of
`calculate_route_conflicts`, accumulating
`(conflict_points, total_route_length, conflict_length)`; `i` is the index
of the first remaining segment. -/
def conflictScan (d : Dist) (bs : List Blockage) :
    ℕ → List Point → List ConflictPoint × ℚ × ℚ
  | _, [] => ([], 0, 0)
  | _, [_] => ([], 0, 0)
  | i, a :: b :: rest =>
    let segLen := d a b
    let tail := conflictScan d bs (i + 1) (b :: rest)
    match segmentHit d bs a b with
    | some (p, bl, dd) =>
      (⟨i, p, bl, dd⟩ :: tail.1, segLen + tail.2.1, segLen + tail.2.2)
    | none => (tail.1, segLen + tail.2.1, tail.2.2)

/-- `OptimizedRouteEngine.calculate_route_conflicts`. -/
def calculate_route_conflicts (d : Dist) (route : List Point)
    (blockages : List Blockage) : ConflictReport :=
  if route = [] ∨ blockages = [] then
    { has_conflicts := false, conflict_points := [], conflict_percentage := 0,
      total_points := 0, conflict_length := 0, total_length := 0 }
  else
    let scan := conflictScan d blockages 0 route
    let conflict_points := scan.1
    let total_route_length := scan.2.1
    let conflict_length := scan.2.2
    let conflict_percentage :=
      if total_route_length > 0 then conflict_length / total_route_length * 100 else 0
    { has_conflicts := ¬ conflict_points.isEmpty,
      conflict_points := conflict_points,
      conflict_percentage := min conflict_percentage 100,
      total_points := route.length,
      conflict_length := conflict_length,
      total_length := total_route_length }

/-- Python `int(x)`: truncation toward zero. -/
def truncQ (x : ℚ) : ℤ := if 0 ≤ x then ⌊x⌋ else ⌈x⌉

/-- `math.radians(x) = x * π / 180`, with `π` the abstract parameter `piQ`. -/
def radiansQ (piQ : ℚ) (x : ℚ) : ℚ := x * piQ / 180

/-- `class PathNode` (only the fields; `id` is derived, `distance_to` below). -/
structure PathNode where
  lat : ℚ
  lon : ℚ
  node_type : String
  name : String
deriving DecidableEq, Repr

/-- `PathNode.distance_to`: geodesic kilometres between two nodes. -/
def PathNode.distance_to (d : Dist) (n m : PathNode) : ℚ :=
  d (n.lat, n.lon) (m.lat, m.lon) / 1000

/-- The ring multipliers `rings = [1.5, 2.0, 2.5, 3.0]`. -/
def ringMultipliers : List ℚ := [3/2, 2, 5/2, 3]

/-- The ring angles `angles = [0, 45, 90, 135, 180, 225, 270, 315]` (degrees). -/
def ringAngles : List ℕ := [0, 45, 90, 135, 180, 225, 270, 315]

/-- The cluster angles `[0, 60, 120, 180, 240, 300]` (degrees). -/
def clusterAngles : List ℕ := [0, 60, 120, 180, 240, 300]

/-- Ring waypoint position around a blockage:
`base_safe_distance = max(radius * ring_multiplier, 1000)`,
`distance_deg = base_safe_distance / 111000`, offset by
`(cos angle_rad, sin angle_rad)`. -/
def ringCandidate (msin mcos : ℚ → ℚ) (piQ : ℚ) (b : Blockage)
    (mult : ℚ) (angle : ℕ) : Point :=
  let base_safe_distance := max (b.radius * mult) 1000
  let angle_rad := radiansQ piQ (angle : ℚ)
  let distance_deg := base_safe_distance / 111000
  (b.lat + distance_deg * mcos angle_rad, b.lon + distance_deg * msin angle_rad)

/-- The per-ring safety filter: safe iff no blockage has the candidate within
`radius + 300` metres of its center (the loop with `is_safe` and `break`). -/
def ringSafe (d : Dist) (blockages : List Blockage) (p : Point) : Bool :=
  blockages.all fun cb => ¬ (d p cb.center ≤ cb.radius + 300)

/-- Per-blockage ring nodes of `_build_comprehensive_network`
(the `for i, blockage in enumerate(blockages)` part). -/
def buildRingNodes (d : Dist) (msin mcos : ℚ → ℚ) (piQ : ℚ)
    (blockages : List Blockage) : List PathNode :=
  blockages.enum.flatMap fun ib =>
    ringMultipliers.flatMap fun mult =>
      ringAngles.filterMap fun angle =>
        let p := ringCandidate msin mcos piQ ib.2 mult angle
        if ringSafe d blockages p then
          some ⟨p.1, p.2, "waypoint",
            "WP_B" ++ toString (ib.1 + 1) ++ "_R" ++ toString mult ++ "_"
              ++ toString angle ++ "deg"⟩
        else none

/-- Centroid of the blockage centers (`center_lat`, `center_lon`). -/
def clusterCenter (blockages : List Blockage) : Point :=
  ((blockages.map Blockage.lat).sum / blockages.length,
   (blockages.map Blockage.lon).sum / blockages.length)

/-- `max_extent`: maximum over blockages of
`distance(centroid, center) + radius`, starting from 0. -/
def maxExtent (d : Dist) (blockages : List Blockage) : ℚ :=
  blockages.foldl (fun acc b => max acc (d (clusterCenter blockages) b.center + b.radius)) 0

/-- The cluster safety filter: safe iff no blockage has the candidate within
`radius + 500` metres of its center. -/
def clusterSafe (d : Dist) (blockages : List Blockage) (p : Point) : Bool :=
  blockages.all fun b => ¬ (d p b.center ≤ b.radius + 500)

/-- Cluster bypass nodes of `_build_comprehensive_network`
(the `if len(blockages) > 1` part). -/
def buildClusterNodes (d : Dist) (msin mcos : ℚ → ℚ) (piQ : ℚ)
    (blockages : List Blockage) : List PathNode :=
  if blockages.length > 1 then
    let c := clusterCenter blockages
    let max_extent := maxExtent d blockages
    [max_extent * (9/5), max_extent * (11/5), max_extent * (13/5)].flatMap
      fun cluster_distance =>
        clusterAngles.filterMap fun angle =>
          let cluster_distance_deg := cluster_distance / 111000
          let angle_rad := radiansQ piQ (angle : ℚ)
          let p := (c.1 + cluster_distance_deg * mcos angle_rad,
                    c.2 + cluster_distance_deg * msin angle_rad)
          if clusterSafe d blockages p then
            some ⟨p.1, p.2, "waypoint",
              "Cluster_WP_" ++ toString (truncQ (cluster_distance / 1000)) ++ "km_"
                ++ toString angle ++ "deg"⟩
          else none
  else []

/-- `OptimizedRouteEngine._build_comprehensive_network` (the `start`/`end`
nodes it constructs are never added to the returned list). -/
def build_comprehensive_network (d : Dist) (msin mcos : ℚ → ℚ) (piQ : ℚ)
    (_start _end : Location) (blockages : List Blockage) : List PathNode :=
  buildRingNodes d msin mcos piQ blockages
    ++ buildClusterNodes d msin mcos piQ blockages

/-- A `path_combinations` entry of `_explore_all_path_combinations`. -/
structure PathCombination where
  name : String
  waypoints : List Point
  estimated_distance : ℚ
  waypoint_count : ℕ
deriving DecidableEq, Repr

/-- `itertools.combinations(l, 2)`, in the same order. -/
def pairsComb : List α → List (α × α)
  | [] => []
  | x :: xs => (xs.map fun y => (x, y)) ++ pairsComb xs

/-- The final two steps of `_explore_all_path_combinations`:
`path_combinations.sort(key=lambda x: x['estimated_distance'])` followed by
truncation to `max_combinations = 50` when longer. -/
def capAndSort (l : List PathCombination) : List PathCombination :=
  let sorted : List PathCombination :=
    l.mergeSort fun a b => decide (a.estimated_distance ≤ b.estimated_distance)
  if sorted.length > 50 then sorted.take 50 else sorted

/-- `OptimizedRouteEngine._explore_all_path_combinations`. -/
def explore_all_path_combinations (d : Dist) (start end_ : Location)
    (network_nodes : List PathNode) (blockages : List Blockage) :
    List PathCombination :=
  let direct_distance := d (start.lat, start.lon) (end_.lat, end_.lon) / 1000
  let singles := network_nodes.filterMap fun node =>
    let dist_start_to_wp := d (start.lat, start.lon) (node.lat, node.lon) / 1000
    let dist_wp_to_end := d (node.lat, node.lon) (end_.lat, end_.lon) / 1000
    let total_distance := dist_start_to_wp + dist_wp_to_end
    if total_distance ≤ direct_distance * 3 then
      some ⟨"Single WP: " ++ node.name, [(node.lat, node.lon)], total_distance, 1⟩
    else none
  let duals :=
    if blockages.length > 1 ∨ blockages.any (fun b => b.radius > 1500) then
      let startNode : PathNode := ⟨start.lat, start.lon, "waypoint", ""⟩
      let sorted_nodes := network_nodes.mergeSort
        (fun n m => decide (PathNode.distance_to d n startNode ≤ PathNode.distance_to d m startNode))
      let top_nodes := sorted_nodes.take (min 20 sorted_nodes.length)
      (pairsComb top_nodes).filterMap fun nn =>
        let dist_start_to_wp1 := d (start.lat, start.lon) (nn.1.lat, nn.1.lon) / 1000
        let dist_wp1_to_wp2 := d (nn.1.lat, nn.1.lon) (nn.2.lat, nn.2.lon) / 1000
        let dist_wp2_to_end := d (nn.2.lat, nn.2.lon) (end_.lat, end_.lon) / 1000
        let total_distance := dist_start_to_wp1 + dist_wp1_to_wp2 + dist_wp2_to_end
        if total_distance ≤ direct_distance * (7/2) then
          some ⟨"Dual WP: " ++ nn.1.name ++ " -> " ++ nn.2.name,
            [(nn.1.lat, nn.1.lon), (nn.2.lat, nn.2.lon)], total_distance, 2⟩
        else none
    else []
  capAndSort (singles ++ duals)

/-- `RoutePath.calculate_score`, as a function of the fields it reads:
`total_distance`, `conflicts`, and the argument `direct_distance`.
When `direct_distance ≤ 0` the Python code sets
`detour_ratio = float('inf')` and then subtracts `(inf - 2.5) * 40`,
making the score `-inf`; that value is modelled as `⊥` in `WithBot ℚ`. -/
def calculate_score (total_distance : ℚ) (conflicts : ConflictReport)
    (direct_distance : ℚ) : WithBot ℚ :=
  if total_distance ≤ 0 then (0 : ℚ)
  else
    let efficiency := min 100 (direct_distance / total_distance * 100)
    let score := efficiency
    let score :=
      if conflicts.has_conflicts then
        max 0 (score - conflicts.conflict_percentage * 20)
      else score + 100
    if direct_distance > 0 then
      let detour_ratio := total_distance / direct_distance
      if detour_ratio > 5/2 then (↑(score - (detour_ratio - 5/2) * 40) : WithBot ℚ)
      else if detour_ratio < 3/2 then (↑(score + 20) : WithBot ℚ)
      else (↑score : WithBot ℚ)
    else ⊥

/-- The dict returned by single-route branches of `get_reliable_route` and by
`_create_realistic_route`. -/
structure RouteResult where
  route : List Point
  distance : ℚ
  duration : ℚ
  success : Bool
  service : String
deriving DecidableEq, Repr

/-- `OptimizedRouteEngine._generate_realistic_segment`. -/
def generate_realistic_segment (d : Dist) (msin mcos : ℚ → ℚ) (piQ : ℚ)
    (a b : Point) : List Point :=
  let distance := d a b / 1000
  let num_points : ℕ := max 8 (truncQ (distance * 2)).toNat
  let lat_diff := b.1 - a.1
  let lon_diff := b.2 - a.2
  (List.range (num_points + 1)).map fun (i : ℕ) =>
    let progress := (i : ℚ) / (num_points : ℚ)
    let lat := a.1 + lat_diff * progress
    let lon := a.2 + lon_diff * progress
    if 0 < progress ∧ progress < 1 then
      let curve_factor := (2/10000) * distance
      (lat + curve_factor * msin (progress * piQ * (21/10)),
       lon + curve_factor * mcos (progress * piQ * (18/10)))
    else (lat, lon)

/-- The per-segment loop of `_create_realistic_route`: route points
(first segment in full, later segments without their first point) and
accumulated kilometre distance. -/
def buildSegments (d : Dist) (msin mcos : ℚ → ℚ) (piQ : ℚ) (first : Bool) :
    List Point → List Point × ℚ
  | [] => ([], 0)
  | [_] => ([], 0)
  | a :: b :: rest =>
    let distance := d a b / 1000
    let segment_points := generate_realistic_segment d msin mcos piQ a b
    let tail := buildSegments d msin mcos piQ false (b :: rest)
    ((if first then segment_points else segment_points.drop 1) ++ tail.1,
      distance + tail.2)

/-- `OptimizedRouteEngine._create_realistic_route`. -/
def create_realistic_route (d : Dist) (msin mcos : ℚ → ℚ) (piQ : ℚ)
    (start_lat start_lon end_lat end_lon : ℚ) (waypoints : List Point) :
    RouteResult :=
  let all_points := (start_lat, start_lon) :: waypoints ++ [(end_lat, end_lon)]
  let built := buildSegments d msin mcos piQ true all_points
  let total_distance := built.2
  { route := built.1,
    distance := total_distance,
    duration := total_distance / 40 * 60,
    success := true,
    service := "Offline" }

/-- One raw OSRM route from a successful mirror response:
`geometry.coordinates` as (lon, lat) pairs, `distance` in metres,
`duration` in seconds. -/
structure OSRMRoute where
  coordinates : List Point
  distance : ℚ
  duration : ℚ
deriving DecidableEq, Repr

/-- Parsing of a single OSRM route in `get_reliable_route`:
coordinates flipped to (lat, lon), metres → km, seconds → minutes. -/
def parseOSRMRoute (r : OSRMRoute) : RouteResult :=
  { route := r.coordinates.map fun c => (c.2, c.1),
    distance := r.distance / 1000,
    duration := r.duration / 60,
    success := true,
    service := "OSRM" }

/-- Outcome of one mirror attempt: `some routes` models an HTTP 200 response
with `code == "Ok"` and a `routes` list; any exception, non-200 status or
malformed body is `none`. -/
abbrev MirrorOutcome : Type := Option (List OSRMRoute)

/-- The `for server in self.routing_services` loop: the first mirror outcome
the code accepts (a response whose `routes` list is non-empty). -/
def firstMirror : List MirrorOutcome → Option (List OSRMRoute)
  | [] => none
  | some rs :: os => if rs.isEmpty then firstMirror os else some rs
  | none :: os => firstMirror os

/-- Return type of `get_reliable_route`: either the multi-route dict
(`multiple_routes: True`) or a single-route dict. -/
inductive RouteReply where
  | multiple (routes : List OSRMRoute)
  | single (r : RouteResult)
deriving DecidableEq, Repr

/-- `OptimizedRouteEngine.get_reliable_route`, with the mirrors' network
behaviour supplied as a list of `MirrorOutcome`s. -/
def get_reliable_route (d : Dist) (msin mcos : ℚ → ℚ) (piQ : ℚ)
    (mirrors : List MirrorOutcome)
    (start_lat start_lon end_lat end_lon : ℚ) (waypoints : List Point) :
    RouteReply :=
  match firstMirror mirrors with
  | some (r :: rs) =>
    if waypoints.isEmpty ∧ (r :: rs).length > 1 then .multiple (r :: rs)
    else .single (parseOSRMRoute r)
  | some [] =>
    .single (create_realistic_route d msin mcos piQ start_lat start_lon
      end_lat end_lon waypoints)
  | none =>
    .single (create_realistic_route d msin mcos piQ start_lat start_lon
      end_lat end_lon waypoints)

/-- The result dict of `find_optimal_avoidance_route` when it is not `None`
(the keys read by `calculate_optimal_route`; `waypoints` is absent on the
OSRM-alternatives branch, hence optional). -/
structure AvoidanceRoute where
  route : List Point
  distance : ℚ
  duration : ℚ
  service : String
  conflicts : ConflictReport
  strategy_name : String
  efficiency_score : ℚ
  distance_impact : ℚ
  waypoints : Option (List Point) := none
deriving Repr

/-- The result dicts of `EnhancedNavigationSystem`.  A Python dict key that is
only present on some branches is modelled as an `Option` field defaulting to
`none`; always-present keys (given `success = true`) are plain fields. -/
structure NavResult where
  success : Bool := false
  message : Option String := none
  route : List Point := []
  distance_km : ℚ := 0
  estimated_time_minutes : ℚ := 0
  total_waypoints : ℕ := 0
  route_type : String := ""
  method : String := ""
  efficiency_score : ℚ := 0
  blockage_impact : ℚ := 0
  service_used : String := "Unknown"
  conflicts : Option ConflictReport := none
  waypoints : Option (List Point) := none
  original_distance : Option ℚ := none
  original_duration : Option ℚ := none
  strategy_name : Option String := none
  warning : Option String := none
  avoidance_success : Option Bool := none
  danger_level : Option String := none
deriving Repr

/-- The consumer read `result.get('conflicts', {}).get('has_conflicts', False)`
used by the dashboard (`route_optimization.py`). -/
def NavResult.hasConflictsRead (r : NavResult) : Bool :=
  (r.conflicts.map ConflictReport.has_conflicts).getD false

/-- `EnhancedNavigationSystem.calculate_direct_route`, with the provider's
reply for the direct (no-waypoint) request supplied as `reply`. -/
def calculate_direct_route (reply : RouteReply) : NavResult :=
  match reply with
  | .multiple _ =>
    { success := false, message := some "Could not calculate direct route" }
  | .single r =>
    if r.success then
      { success := true,
        route := r.route,
        distance_km := r.distance,
        estimated_time_minutes := r.duration,
        total_waypoints := r.route.length,
        route_type := "🟢 Direct Route (" ++ r.service ++ ")",
        method := "Direct routing via " ++ r.service,
        efficiency_score := 100,
        blockage_impact := 0,
        service_used := r.service }
    else
      { success := false, message := some "Could not calculate direct route" }

/-- `EnhancedNavigationSystem.calculate_optimal_route`.  The two external
effects are supplied as parameters: `directReply` is the provider's reply for
the direct request, and `avoidance` is the result of
`find_optimal_avoidance_route` (`none` models Python `None`). -/
def calculate_optimal_route (d : Dist) (directReply : RouteReply)
    (avoidance : Option AvoidanceRoute) (blockages : List Blockage)
    (show_direct : Bool) : NavResult :=
  let direct_route := calculate_direct_route directReply
  if ¬ direct_route.success then direct_route
  else if show_direct ∨ blockages.isEmpty then
    if show_direct then
      { direct_route with
        route_type := "🟢 Direct Route - Obstacles Ignored ("
          ++ direct_route.service_used ++ ")" }
    else direct_route
  else
    let conflicts := calculate_route_conflicts d direct_route.route blockages
    if ¬ conflicts.has_conflicts then
      { direct_route with
        route_type := "🟢 Direct Route - Verified Safe ("
          ++ direct_route.service_used ++ ")",
        conflicts := some conflicts }
    else
      let conflict_pct := conflicts.conflict_percentage
      match avoidance with
      | some av =>
        let route_type :=
          if ¬ av.conflicts.has_conflicts then
            "🔵 Perfect Avoidance Route (" ++ av.service ++ ")"
          else if av.conflicts.conflict_percentage < conflict_pct / 2 then
            "🟡 Improved Avoidance Route (" ++ av.service ++ ")"
          else
            "🟠 Partial Avoidance Route (" ++ av.service ++ ")"
        { success := true,
          route := av.route,
          distance_km := av.distance,
          estimated_time_minutes := av.duration,
          blockage_impact := |av.distance_impact|,
          total_waypoints := av.route.length,
          route_type := route_type,
          method := "Strong avoidance via " ++ av.service,
          conflicts := some av.conflicts,
          waypoints := some (av.waypoints.getD []),
          efficiency_score := av.efficiency_score,
          original_distance := some direct_route.distance_km,
          original_duration := some direct_route.estimated_time_minutes,
          strategy_name := some av.strategy_name,
          service_used := av.service,
          avoidance_success := some (¬ av.conflicts.has_conflicts) }
      | none =>
        { success := true,
          route := direct_route.route,
          distance_km := direct_route.distance_km,
          estimated_time_minutes := direct_route.estimated_time_minutes,
          blockage_impact := conflicts.conflict_percentage,
          total_waypoints := direct_route.route.length,
          route_type := "🔴 DANGEROUS ROUTE - OBSTACLES NOT AVOIDED ("
            ++ direct_route.service_used ++ ")",
          method := "FALLBACK - Avoidance system failed",
          conflicts := some conflicts,
          efficiency_score := 0,
          warning := some ("CRITICAL: Route passes through "
            ++ toString conflicts.conflict_points.length ++ " obstacle areas"),
          service_used := direct_route.service_used,
          avoidance_success := some false,
          danger_level := some "HIGH" }

/-! ### Helper lemmas about the conflict detector -/

/-- Closed form of the main loop of `calculate_route_conflicts`: the
conflict entries are the first hits of the consecutive segments (with their
positions), the total length is the sum of all segment lengths, and the
conflict length is the sum of the lengths of the segments with a hit. -/
theorem conflictScan_eq (d : Dist) (bs : List Blockage) :
    ∀ (i : ℕ) (pts : List Point),
      conflictScan d bs i pts =
        (((pts.zip pts.tail).enumFrom i).filterMap fun x =>
            (segmentHit d bs x.2.1 x.2.2).map fun h =>
              (⟨x.1, h.1, h.2.1, h.2.2⟩ : ConflictPoint),
          ((pts.zip pts.tail).map fun s => d s.1 s.2).sum,
          (((pts.zip pts.tail).filter fun s => (segmentHit d bs s.1 s.2).isSome).map
              fun s => d s.1 s.2).sum)
  | _, [] => by simp [conflictScan]
  | _, [_] => by simp [conflictScan]
  | i, a :: b :: rest => by
    have ih := conflictScan_eq d bs (i + 1) (b :: rest)
    simp only [conflictScan, ih, List.tail_cons, List.zip_cons_cons,
      List.enumFrom_cons, List.filterMap_cons, List.map_cons, List.sum_cons,
      List.filter_cons]
    cases h : segmentHit d bs a b <;> simp [h]

/-- The inner blockage loop finds a hit iff some blockage is within
`radius + 150` metres of the sample point. -/
theorem findBlockageHit_isSome_iff (d : Dist) (p : Point) :
    ∀ bs : List Blockage,
      (findBlockageHit d p bs).isSome ↔ ∃ b ∈ bs, d p b.center ≤ b.radius + 150
  | [] => by simp [findBlockageHit]
  | b :: bs => by
    rw [show findBlockageHit d p (b :: bs)
        = if d p b.center ≤ b.radius + 150 then some (b, d p b.center)
          else findBlockageHit d p bs from rfl]
    split_ifs with h
    · simp only [Option.isSome_some, true_iff]
      exact ⟨b, List.mem_cons_self b bs, h⟩
    · constructor
      · intro hs
        obtain ⟨bl, hbl, hle⟩ := (findBlockageHit_isSome_iff d p bs).1 hs
        exact ⟨bl, List.mem_cons_of_mem _ hbl, hle⟩
      · rintro ⟨bl, hbl, hle⟩
        rcases List.mem_cons.1 hbl with rfl | hbl'
        · exact absurd hle h
        · exact (findBlockageHit_isSome_iff d p bs).2 ⟨bl, hbl', hle⟩

/-- The sample loop finds a hit iff some sample index yields a sample point
within `radius + 150` metres of some blockage. -/
theorem findSampleHit_isSome_iff (d : Dist) (a b : Point) (bs : List Blockage) :
    ∀ js : List ℕ,
      (findSampleHit d a b bs js).isSome ↔
        ∃ j ∈ js, ∃ bl ∈ bs, d (checkPoint a b j) bl.center ≤ bl.radius + 150
  | [] => by simp [findSampleHit]
  | j :: js => by
    simp only [findSampleHit]
    cases h : findBlockageHit d (checkPoint a b j) bs with
    | some hit =>
      simp only [Option.isSome_some, true_iff]
      have : (findBlockageHit d (checkPoint a b j) bs).isSome := by simp [h]
      obtain ⟨bl, hbl, hle⟩ := (findBlockageHit_isSome_iff d (checkPoint a b j) bs).1 this
      exact ⟨j, List.mem_cons_self j js, bl, hbl, hle⟩
    | none =>
      rw [findSampleHit_isSome_iff d a b bs js]
      constructor
      · rintro ⟨j', hj', bl, hbl, hle⟩
        exact ⟨j', List.mem_cons_of_mem _ hj', bl, hbl, hle⟩
      · rintro ⟨j', hj', bl, hbl, hle⟩
        rcases List.mem_cons.1 hj' with rfl | hj''
        · exfalso
          have : (findBlockageHit d (checkPoint a b j') bs).isSome :=
            (findBlockageHit_isSome_iff d (checkPoint a b j') bs).2 ⟨bl, hbl, hle⟩
          rw [h] at this
          simp at this
        · exact ⟨j', hj'', bl, hbl, hle⟩

/-- A segment has a hit iff one of the 5 samples at ratios `j/4`,
`j ∈ {0,…,4}`, is within `radius + 150` metres of some blockage center. -/
theorem segmentHit_isSome_iff (d : Dist) (bs : List Blockage) (a b : Point) :
    (segmentHit d bs a b).isSome ↔
      ∃ j ∈ sampleIdxs, ∃ bl ∈ bs,
        d (checkPoint a b j) bl.center ≤ bl.radius + 150 :=
  findSampleHit_isSome_iff d a b bs sampleIdxs

/-! ### Claim theorems: conflict detector -/

/-- C10: a one-point route has no segments, so the conflict detector reports
`has_conflicts = false` and `conflict_percentage = 0` for every non-empty
blockage list — even when the single point lies inside a blockage. -/
theorem single_point_route_no_conflicts (d : Dist) (p : Point)
    (bs : List Blockage) (hbs : bs ≠ []) :
    (calculate_route_conflicts d [p] bs).has_conflicts = false ∧
    (calculate_route_conflicts d [p] bs).conflict_percentage = 0 := by
  simp [calculate_route_conflicts, hbs, conflictScan]

/-- Taxicab distance: a concrete computable stand-in for the abstract
geodesic used to evaluate witnesses. -/
def distExample : Dist := fun p q => |p.1 - q.1| + |p.2 - q.2|

/-- Witness for C10: the point `(0,0)` lies inside the 100 m blockage at the
origin, yet the one-point route reports no conflicts. -/
theorem single_point_route_no_conflicts_witness :
    ([⟨0, 0, 100, "construction"⟩] : List Blockage) ≠ [] ∧
    distExample (0, 0) (0, 0) ≤ 100 ∧
    ((calculate_route_conflicts distExample [(0, 0)]
        [⟨0, 0, 100, "construction"⟩]).has_conflicts = false ∧
      (calculate_route_conflicts distExample [(0, 0)]
        [⟨0, 0, 100, "construction"⟩]).conflict_percentage = 0) :=
  ⟨by decide, by norm_num [distExample],
    single_point_route_no_conflicts distExample (0, 0) _ (by decide)⟩

/-- C4: the conflict percentage always lies in `[0, 100]`, and a path of
total length 0 yields percentage 0 (the division is guarded). -/
theorem conflict_percentage_in_range (d : Dist) (hd : ∀ a b, 0 ≤ d a b)
    (route : List Point) (bs : List Blockage) :
    0 ≤ (calculate_route_conflicts d route bs).conflict_percentage ∧
    (calculate_route_conflicts d route bs).conflict_percentage ≤ 100 ∧
    ((calculate_route_conflicts d route bs).total_length = 0 →
      (calculate_route_conflicts d route bs).conflict_percentage = 0) := by
  unfold calculate_route_conflicts
  split
  · simp
  · have htot : 0 ≤ (conflictScan d bs 0 route).2.1 := by
      rw [conflictScan_eq]
      apply List.sum_nonneg
      intro x hx
      obtain ⟨s, _, rfl⟩ := List.mem_map.1 hx
      exact hd s.1 s.2
    have hc : 0 ≤ (conflictScan d bs 0 route).2.2 := by
      rw [conflictScan_eq]
      apply List.sum_nonneg
      intro x hx
      obtain ⟨s, _, rfl⟩ := List.mem_map.1 hx
      exact hd s.1 s.2
    dsimp only
    refine ⟨?_, min_le_right _ _, ?_⟩
    · apply le_min _ (by norm_num)
      split_ifs with h
      · positivity
      · exact le_refl 0
    · intro h0
      rw [h0]
      simp

/-- Witness for C4, at a two-point route crossing a blockage. -/
theorem conflict_percentage_in_range_witness :
    (∀ a b, 0 ≤ distExample a b) ∧
    (0 ≤ (calculate_route_conflicts distExample [(0, 0), (1, 1)]
        [⟨0, 0, 100, "b"⟩]).conflict_percentage ∧
      (calculate_route_conflicts distExample [(0, 0), (1, 1)]
        [⟨0, 0, 100, "b"⟩]).conflict_percentage ≤ 100 ∧
      ((calculate_route_conflicts distExample [(0, 0), (1, 1)]
          [⟨0, 0, 100, "b"⟩]).total_length = 0 →
        (calculate_route_conflicts distExample [(0, 0), (1, 1)]
          [⟨0, 0, 100, "b"⟩]).conflict_percentage = 0)) :=
  ⟨fun _ _ => add_nonneg (abs_nonneg _) (abs_nonneg _),
    conflict_percentage_in_range distExample
      (fun _ _ => add_nonneg (abs_nonneg _) (abs_nonneg _)) _ _⟩

/-! ### Claim theorems: path combination explorer -/

/-- The sort-and-truncate step returns at most 50 entries, sorted by
estimated distance. -/
theorem capAndSort_spec (l : List PathCombination) :
    (capAndSort l).length ≤ 50 ∧
    (capAndSort l).Pairwise
      (fun a b => a.estimated_distance ≤ b.estimated_distance) := by
  unfold capAndSort
  have hs : (l.mergeSort fun a b =>
      decide (a.estimated_distance ≤ b.estimated_distance)).Pairwise
      (fun a b => decide (a.estimated_distance ≤ b.estimated_distance) = true) := by
    apply List.sorted_mergeSort
    · intro a b c hab hbc
      simp only [decide_eq_true_eq] at *
      exact le_trans hab hbc
    · intro a b
      simpa [Bool.or_eq_true, decide_eq_true_eq] using
        le_total a.estimated_distance b.estimated_distance
  have hs' : (l.mergeSort fun a b =>
      decide (a.estimated_distance ≤ b.estimated_distance)).Pairwise
      (fun a b => a.estimated_distance ≤ b.estimated_distance) :=
    hs.imp fun h => by simpa using h
  dsimp only
  constructor
  · split_ifs with h
    · simp
    · omega
  · split_ifs with h
    · exact hs'.sublist (List.take_sublist _ _)
    · exact hs'

/-- C2: the Path Combination Explorer returns at most 50 combinations,
sorted in non-decreasing order of `estimated_distance`. -/
theorem explorer_bounded_and_sorted (d : Dist) (start end_ : Location)
    (network_nodes : List PathNode) (blockages : List Blockage) :
    (explore_all_path_combinations d start end_ network_nodes blockages).length ≤ 50 ∧
    (explore_all_path_combinations d start end_ network_nodes blockages).Pairwise
      (fun a b => a.estimated_distance ≤ b.estimated_distance) := by
  unfold explore_all_path_combinations
  exact capAndSort_spec _

/-! ### Claim theorems: waypoint network builder -/

/-- Membership in the ring nodes forces the 300 m safety filter to hold. -/
theorem mem_buildRingNodes_safe (d : Dist) (msin mcos : ℚ → ℚ) (piQ : ℚ)
    (blockages : List Blockage) (n : PathNode)
    (hn : n ∈ buildRingNodes d msin mcos piQ blockages) :
    ringSafe d blockages (n.lat, n.lon) = true := by
  unfold buildRingNodes at hn
  obtain ⟨ib, _, hn⟩ := List.mem_flatMap.1 hn
  obtain ⟨mult, _, hn⟩ := List.mem_flatMap.1 hn
  obtain ⟨angle, _, heq⟩ := List.mem_filterMap.1 hn
  dsimp only at heq
  split_ifs at heq with hsafe
  cases heq with
  | refl => simpa using hsafe

/-- Membership in the cluster nodes forces the 500 m safety filter to hold. -/
theorem mem_buildClusterNodes_safe (d : Dist) (msin mcos : ℚ → ℚ) (piQ : ℚ)
    (blockages : List Blockage) (n : PathNode)
    (hn : n ∈ buildClusterNodes d msin mcos piQ blockages) :
    clusterSafe d blockages (n.lat, n.lon) = true := by
  unfold buildClusterNodes at hn
  split_ifs at hn with hlen
  · obtain ⟨cd, _, hn⟩ := List.mem_flatMap.1 hn
    obtain ⟨angle, _, heq⟩ := List.mem_filterMap.1 hn
    dsimp only at heq
    split_ifs at heq with hsafe
    cases heq with
    | refl => simpa using hsafe
  · exact absurd hn (by simp)

/-- C1: every waypoint candidate returned by the network builder clears
every blockage strictly by its radius plus the buffer: 300 m for
per-blockage ring candidates, 500 m for cluster candidates; and the
network is exactly the ring candidates followed by the cluster candidates. -/
theorem network_safety (d : Dist) (msin mcos : ℚ → ℚ) (piQ : ℚ)
    (start end_ : Location) (blockages : List Blockage)
    (hbs : blockages ≠ []) :
    (∀ n ∈ buildRingNodes d msin mcos piQ blockages, ∀ b ∈ blockages,
        b.radius + 300 < d (n.lat, n.lon) b.center) ∧
    (∀ n ∈ buildClusterNodes d msin mcos piQ blockages, ∀ b ∈ blockages,
        b.radius + 500 < d (n.lat, n.lon) b.center) ∧
    build_comprehensive_network d msin mcos piQ start end_ blockages =
      buildRingNodes d msin mcos piQ blockages
        ++ buildClusterNodes d msin mcos piQ blockages := by
  refine ⟨?_, ?_, rfl⟩
  · intro n hn b hb
    have hsafe := mem_buildRingNodes_safe d msin mcos piQ blockages n hn
    unfold ringSafe at hsafe
    have := List.all_eq_true.1 hsafe b hb
    simp only [decide_eq_true_eq] at this
    exact lt_of_not_le this
  · intro n hn b hb
    have hsafe := mem_buildClusterNodes_safe d msin mcos piQ blockages n hn
    unfold clusterSafe at hsafe
    have := List.all_eq_true.1 hsafe b hb
    simp only [decide_eq_true_eq] at this
    exact lt_of_not_le this

/-- Witness for C1, with two far-apart blockages (so both ring and cluster
candidates exist) and the taxicab distance scaled to metre-like values. -/
theorem network_safety_witness :
    (([⟨0, 0, 100, "b1"⟩, ⟨1, 1, 200, "b2"⟩] : List Blockage) ≠ []) ∧
    ((∀ n ∈ buildRingNodes distExample (fun _ => 0) (fun _ => 1) 3
          [⟨0, 0, 100, "b1"⟩, ⟨1, 1, 200, "b2"⟩],
        ∀ b ∈ ([⟨0, 0, 100, "b1"⟩, ⟨1, 1, 200, "b2"⟩] : List Blockage),
          b.radius + 300 < distExample (n.lat, n.lon) b.center) ∧
      (∀ n ∈ buildClusterNodes distExample (fun _ => 0) (fun _ => 1) 3
          [⟨0, 0, 100, "b1"⟩, ⟨1, 1, 200, "b2"⟩],
        ∀ b ∈ ([⟨0, 0, 100, "b1"⟩, ⟨1, 1, 200, "b2"⟩] : List Blockage),
          b.radius + 500 < distExample (n.lat, n.lon) b.center) ∧
      build_comprehensive_network distExample (fun _ => 0) (fun _ => 1) 3
          ⟨0, 0, "s"⟩ ⟨1, 1, "e"⟩ [⟨0, 0, 100, "b1"⟩, ⟨1, 1, 200, "b2"⟩] =
        buildRingNodes distExample (fun _ => 0) (fun _ => 1) 3
            [⟨0, 0, 100, "b1"⟩, ⟨1, 1, 200, "b2"⟩]
          ++ buildClusterNodes distExample (fun _ => 0) (fun _ => 1) 3
            [⟨0, 0, 100, "b1"⟩, ⟨1, 1, 200, "b2"⟩]) :=
  ⟨by decide,
    network_safety distExample (fun _ => 0) (fun _ => 1) 3 ⟨0, 0, "s"⟩
      ⟨1, 1, "e"⟩ [⟨0, 0, 100, "b1"⟩, ⟨1, 1, 200, "b2"⟩] (by decide)⟩

/-! ### Claim theorems: route provider fallback -/

/-- If every mirror attempt fails, the mirror loop accepts none of them. -/
theorem firstMirror_all_none :
    ∀ ms : List MirrorOutcome, (∀ o ∈ ms, o = none) → firstMirror ms = none
  | [], _ => rfl
  | o :: os, h => by
    have ho := h o (List.mem_cons_self o os)
    subst ho
    exact firstMirror_all_none os fun x hx => h x (List.mem_cons_of_mem _ hx)

/-- C5: when every mirror fails, `get_reliable_route` returns the synthetic
route; the synthetic route always reports success, is served as "Offline",
has duration `(distance / 40) * 60` minutes, and each generated segment has
`max(8, int(2 × segment_km)) + 1 ≥ 9` points. -/
theorem offline_fallback_success (d : Dist) (msin mcos : ℚ → ℚ) (piQ : ℚ)
    (mirrors : List MirrorOutcome) (hm : ∀ o ∈ mirrors, o = none)
    (start_lat start_lon end_lat end_lon : ℚ) (waypoints : List Point) :
    get_reliable_route d msin mcos piQ mirrors start_lat start_lon end_lat
        end_lon waypoints
      = .single (create_realistic_route d msin mcos piQ start_lat start_lon
          end_lat end_lon waypoints) ∧
    (create_realistic_route d msin mcos piQ start_lat start_lon end_lat
        end_lon waypoints).success = true ∧
    (create_realistic_route d msin mcos piQ start_lat start_lon end_lat
        end_lon waypoints).service = "Offline" ∧
    (create_realistic_route d msin mcos piQ start_lat start_lon end_lat
        end_lon waypoints).duration
      = (create_realistic_route d msin mcos piQ start_lat start_lon end_lat
          end_lon waypoints).distance / 40 * 60 ∧
    ∀ a b : Point,
      (generate_realistic_segment d msin mcos piQ a b).length
          = max 8 (truncQ (d a b / 1000 * 2)).toNat + 1 ∧
      9 ≤ (generate_realistic_segment d msin mcos piQ a b).length := by
  refine ⟨?_, rfl, rfl, rfl, ?_⟩
  · unfold get_reliable_route
    rw [firstMirror_all_none mirrors hm]
  · intro a b
    have hlen : (generate_realistic_segment d msin mcos piQ a b).length
        = max 8 (truncQ (d a b / 1000 * 2)).toNat + 1 := by
      simp only [generate_realistic_segment, List.length_map, List.length_range]
    refine ⟨hlen, ?_⟩
    rw [hlen]
    have := le_max_left 8 (truncQ (d a b / 1000 * 2)).toNat
    omega

/-- Witness for C5: both mirrors unreachable. -/
theorem offline_fallback_success_witness :
    (∀ o ∈ ([none, none] : List MirrorOutcome), o = none) ∧
    (get_reliable_route distExample (fun _ => 0) (fun _ => 1) 3
        [none, none] 0 0 1 1 []
      = .single (create_realistic_route distExample (fun _ => 0) (fun _ => 1) 3
          0 0 1 1 []) ∧
    (create_realistic_route distExample (fun _ => 0) (fun _ => 1) 3
        0 0 1 1 []).success = true ∧
    (create_realistic_route distExample (fun _ => 0) (fun _ => 1) 3
        0 0 1 1 []).service = "Offline" ∧
    (create_realistic_route distExample (fun _ => 0) (fun _ => 1) 3
        0 0 1 1 []).duration
      = (create_realistic_route distExample (fun _ => 0) (fun _ => 1) 3
          0 0 1 1 []).distance / 40 * 60 ∧
    ∀ a b : Point,
      (generate_realistic_segment distExample (fun _ => 0) (fun _ => 1) 3 a b).length
          = max 8 (truncQ (distExample a b / 1000 * 2)).toNat + 1 ∧
      9 ≤ (generate_realistic_segment distExample (fun _ => 0) (fun _ => 1) 3 a b).length) :=
  ⟨by decide,
    offline_fallback_success distExample (fun _ => 0) (fun _ => 1) 3
      [none, none] (by decide) 0 0 1 1 []⟩

/-- C8: the synthetic fallback generator is deterministic — any two results
computed from the same inputs are identical (same points, distance,
duration).  The active source draws no randomness; the embedding is a pure
function of the shown arguments. -/
theorem synthetic_route_deterministic (d : Dist) (msin mcos : ℚ → ℚ)
    (piQ : ℚ) (start_lat start_lon end_lat end_lon : ℚ)
    (waypoints : List Point) (r₁ r₂ : RouteResult)
    (h₁ : r₁ = create_realistic_route d msin mcos piQ start_lat start_lon
        end_lat end_lon waypoints)
    (h₂ : r₂ = create_realistic_route d msin mcos piQ start_lat start_lon
        end_lat end_lon waypoints) :
    r₁ = r₂ ∧ r₁.route = r₂.route ∧ r₁.distance = r₂.distance ∧
      r₁.duration = r₂.duration := by
  subst h₁
  subst h₂
  exact ⟨rfl, rfl, rfl, rfl⟩

/-- Witness for C8: two computations of the same synthetic route coincide. -/
theorem synthetic_route_deterministic_witness :
    create_realistic_route distExample (fun _ => 0) (fun _ => 1) 3 0 0 1 1 [(2, 2)]
        = create_realistic_route distExample (fun _ => 0) (fun _ => 1) 3 0 0 1 1 [(2, 2)] ∧
    (create_realistic_route distExample (fun _ => 0) (fun _ => 1) 3 0 0 1 1 [(2, 2)]).route
        = (create_realistic_route distExample (fun _ => 0) (fun _ => 1) 3 0 0 1 1 [(2, 2)]).route ∧
    (create_realistic_route distExample (fun _ => 0) (fun _ => 1) 3 0 0 1 1 [(2, 2)]).distance
        = (create_realistic_route distExample (fun _ => 0) (fun _ => 1) 3 0 0 1 1 [(2, 2)]).distance ∧
    (create_realistic_route distExample (fun _ => 0) (fun _ => 1) 3 0 0 1 1 [(2, 2)]).duration
        = (create_realistic_route distExample (fun _ => 0) (fun _ => 1) 3 0 0 1 1 [(2, 2)]).duration :=
  synthetic_route_deterministic distExample (fun _ => 0) (fun _ => 1) 3 0 0 1 1
    [(2, 2)] _ _ rfl rfl

/-! ### Claim theorems: route scorer -/

/-- Counterexample to C7 as stated: at actual distance 0 (and positive
direct distance) the `total_distance <= 0` guard returns 0 for both the
conflict-free candidate and the conflicted one, so the conflict-free
candidate does not score strictly higher. -/
theorem score_monotonicity_counterexample :
    calculate_score 0 ⟨false, [], 0, 2, 0, 2⟩ 1
        = calculate_score 0 ⟨true, [⟨0, (0, 0), ⟨0, 0, 100, "b"⟩, 10⟩], 50, 2, 1, 2⟩ 1 ∧
    ¬ (calculate_score 0 ⟨true, [⟨0, (0, 0), ⟨0, 0, 100, "b"⟩, 10⟩], 50, 2, 1, 2⟩ 1
        < calculate_score 0 ⟨false, [], 0, 2, 0, 2⟩ 1) := by
  constructor
  · rfl
  · intro h
    rw [show calculate_score 0 ⟨true, [⟨0, (0, 0), ⟨0, 0, 100, "b"⟩, 10⟩], 50, 2, 1, 2⟩ 1
        = ((0 : ℚ) : WithBot ℚ) from rfl,
      show calculate_score 0 ⟨false, [], 0, 2, 0, 2⟩ 1 = ((0 : ℚ) : WithBot ℚ) from rfl] at h
    exact lt_irrefl _ h

/-- C7, amended with positive actual distance: for equal positive actual
distance and positive direct distance, a conflict-free report scores
strictly higher than any report with conflicts and positive conflict
percentage. -/
theorem score_monotonicity_amended (td dd : ℚ) (cfree ccon : ConflictReport)
    (htd : 0 < td) (hdd : 0 < dd)
    (hfree : cfree.has_conflicts = false) (hcon : ccon.has_conflicts = true)
    (hpos : 0 < ccon.conflict_percentage) :
    calculate_score td ccon dd < calculate_score td cfree dd := by
  unfold calculate_score
  rw [if_neg (not_le.2 htd), if_neg (not_le.2 htd)]
  dsimp only
  rw [hfree, hcon]
  have heffpos : (0 : ℚ) < min 100 (dd / td * 100) :=
    lt_min (by norm_num) (by positivity)
  have hkey : max 0 (min 100 (dd / td * 100) - ccon.conflict_percentage * 20)
      < min 100 (dd / td * 100) + 100 := by
    apply max_lt
    · linarith
    · linarith
  simp only [if_true, Bool.false_eq_true, if_false]
  rw [if_pos hdd, if_pos hdd]
  split_ifs with h1 h2
  · exact WithBot.coe_lt_coe.2 (by linarith)
  · exact WithBot.coe_lt_coe.2 (by linarith)
  · exact WithBot.coe_lt_coe.2 (by linarith)

/-- Witness for C7 (amended), at distance 2 km vs direct 1 km and 50 %
conflict percentage. -/
theorem score_monotonicity_amended_witness :
    (0 : ℚ) < 2 ∧ (0 : ℚ) < 1 ∧
    (⟨false, [], 0, 2, 0, 2⟩ : ConflictReport).has_conflicts = false ∧
    (⟨true, [⟨0, (0, 0), ⟨0, 0, 100, "b"⟩, 10⟩], 50, 2, 1, 2⟩
        : ConflictReport).has_conflicts = true ∧
    (0 : ℚ) < (⟨true, [⟨0, (0, 0), ⟨0, 0, 100, "b"⟩, 10⟩], 50, 2, 1, 2⟩
        : ConflictReport).conflict_percentage ∧
    calculate_score 2 ⟨true, [⟨0, (0, 0), ⟨0, 0, 100, "b"⟩, 10⟩], 50, 2, 1, 2⟩ 1
      < calculate_score 2 ⟨false, [], 0, 2, 0, 2⟩ 1 :=
  ⟨by norm_num, by norm_num, rfl, rfl, by norm_num,
    score_monotonicity_amended 2 1 ⟨false, [], 0, 2, 0, 2⟩
      ⟨true, [⟨0, (0, 0), ⟨0, 0, 100, "b"⟩, 10⟩], 50, 2, 1, 2⟩
      (by norm_num) (by norm_num) rfl rfl (by norm_num)⟩

/-! ### Claim theorems: avoidance orchestrator -/

/-- Counterexample to C9 as stated: with no blockages the returned direct
route has `efficiency_score = 100` but carries **no** `conflicts` key at all
(`conflicts = none`), so there is no conflicts field whose `has_conflicts`
is false. -/
theorem scenario_a_counterexample :
    (calculate_optimal_route distExample
        (.single (parseOSRMRoute ⟨[(0, 0), (1, 1)], 5000, 600⟩)) none []
        false).efficiency_score = 100 ∧
    (calculate_optimal_route distExample
        (.single (parseOSRMRoute ⟨[(0, 0), (1, 1)], 5000, 600⟩)) none []
        false).conflicts = none ∧
    ¬ ∃ cr, (calculate_optimal_route distExample
        (.single (parseOSRMRoute ⟨[(0, 0), (1, 1)], 5000, 600⟩)) none []
        false).conflicts = some cr ∧ cr.has_conflicts = false := by
  refine ⟨rfl, rfl, ?_⟩
  rintro ⟨cr, hcr, -⟩
  rw [show (calculate_optimal_route distExample
      (.single (parseOSRMRoute ⟨[(0, 0), (1, 1)], 5000, 600⟩)) none []
      false).conflicts = none from rfl] at hcr
  exact Option.noConfusion hcr

/-- C9, amended: with no blockages the orchestrator returns the direct
route unchanged, with `efficiency_score = 100`; the result carries no
`conflicts` field, and the consumers' defaulted read of `has_conflicts`
yields `false`. -/
theorem scenario_a_amended (d : Dist) (reply : RouteReply)
    (avoidance : Option AvoidanceRoute)
    (hsucc : (calculate_direct_route reply).success = true) :
    calculate_optimal_route d reply avoidance [] false
        = calculate_direct_route reply ∧
    (calculate_optimal_route d reply avoidance [] false).efficiency_score = 100 ∧
    (calculate_optimal_route d reply avoidance [] false).conflicts = none ∧
    (calculate_optimal_route d reply avoidance [] false).hasConflictsRead = false := by
  have h1 : calculate_optimal_route d reply avoidance [] false
      = calculate_direct_route reply := by
    unfold calculate_optimal_route
    simp [hsucc]
  refine ⟨h1, ?_, ?_, ?_⟩ <;> rw [h1] <;>
    rcases reply with rs | r <;>
      simp_all [calculate_direct_route, NavResult.hasConflictsRead] <;>
        split_ifs <;> simp_all [NavResult.hasConflictsRead]

/-- Witness for C9 (amended), with a successful single-route reply. -/
theorem scenario_a_amended_witness :
    (calculate_direct_route
        (.single (parseOSRMRoute ⟨[(0, 0), (1, 1)], 5000, 600⟩))).success = true ∧
    (calculate_optimal_route distExample
        (.single (parseOSRMRoute ⟨[(0, 0), (1, 1)], 5000, 600⟩)) none [] false
      = calculate_direct_route
          (.single (parseOSRMRoute ⟨[(0, 0), (1, 1)], 5000, 600⟩)) ∧
    (calculate_optimal_route distExample
        (.single (parseOSRMRoute ⟨[(0, 0), (1, 1)], 5000, 600⟩)) none []
        false).efficiency_score = 100 ∧
    (calculate_optimal_route distExample
        (.single (parseOSRMRoute ⟨[(0, 0), (1, 1)], 5000, 600⟩)) none []
        false).conflicts = none ∧
    (calculate_optimal_route distExample
        (.single (parseOSRMRoute ⟨[(0, 0), (1, 1)], 5000, 600⟩)) none []
        false).hasConflictsRead = false) :=
  ⟨rfl, scenario_a_amended distExample
    (.single (parseOSRMRoute ⟨[(0, 0), (1, 1)], 5000, 600⟩)) none rfl⟩

/-- C6: when the direct route succeeds but conflicts, and the avoidance
search returns no candidate (`None`), the orchestrator returns a flagged
success: the direct route's points, `avoidance_success = false`, a warning,
and `danger_level = "HIGH"` — never an error. -/
theorem exhaustion_flagged_success (d : Dist) (reply : RouteReply)
    (bs : List Blockage)
    (hsucc : (calculate_direct_route reply).success = true)
    (hbs : bs ≠ [])
    (hconf : (calculate_route_conflicts d (calculate_direct_route reply).route
        bs).has_conflicts = true) :
    (calculate_optimal_route d reply none bs false).success = true ∧
    (calculate_optimal_route d reply none bs false).route
        = (calculate_direct_route reply).route ∧
    (calculate_optimal_route d reply none bs false).avoidance_success
        = some false ∧
    (calculate_optimal_route d reply none bs false).warning.isSome = true ∧
    (calculate_optimal_route d reply none bs false).danger_level
        = some "HIGH" := by
  have hne : bs.isEmpty = false := by
    cases bs with
    | nil => exact absurd rfl hbs
    | cons x xs => rfl
  unfold calculate_optimal_route
  simp [hsucc, hne, hconf]

/-- Witness for C6: a direct route crossing a 100 m blockage at the origin,
with the avoidance search exhausted. -/
theorem exhaustion_flagged_success_witness :
    (calculate_direct_route
        (.single (parseOSRMRoute ⟨[(0, 0), (1, 1)], 5000, 600⟩))).success = true ∧
    ([⟨0, 0, 100, "b"⟩] : List Blockage) ≠ [] ∧
    (calculate_route_conflicts distExample
        (calculate_direct_route
          (.single (parseOSRMRoute ⟨[(0, 0), (1, 1)], 5000, 600⟩))).route
        [⟨0, 0, 100, "b"⟩]).has_conflicts = true ∧
    ((calculate_optimal_route distExample
        (.single (parseOSRMRoute ⟨[(0, 0), (1, 1)], 5000, 600⟩)) none
        [⟨0, 0, 100, "b"⟩] false).success = true ∧
    (calculate_optimal_route distExample
        (.single (parseOSRMRoute ⟨[(0, 0), (1, 1)], 5000, 600⟩)) none
        [⟨0, 0, 100, "b"⟩] false).route
      = (calculate_direct_route
          (.single (parseOSRMRoute ⟨[(0, 0), (1, 1)], 5000, 600⟩))).route ∧
    (calculate_optimal_route distExample
        (.single (parseOSRMRoute ⟨[(0, 0), (1, 1)], 5000, 600⟩)) none
        [⟨0, 0, 100, "b"⟩] false).avoidance_success = some false ∧
    (calculate_optimal_route distExample
        (.single (parseOSRMRoute ⟨[(0, 0), (1, 1)], 5000, 600⟩)) none
        [⟨0, 0, 100, "b"⟩] false).warning.isSome = true ∧
    (calculate_optimal_route distExample
        (.single (parseOSRMRoute ⟨[(0, 0), (1, 1)], 5000, 600⟩)) none
        [⟨0, 0, 100, "b"⟩] false).danger_level = some "HIGH")   := by
  have hconf : (calculate_route_conflicts distExample
      (calculate_direct_route
        (.single (parseOSRMRoute ⟨[(0, 0), (1, 1)], 5000, 600⟩))).route
      [⟨0, 0, 100, "b"⟩]).has_conflicts = true := by
    norm_num [calculate_route_conflicts, conflictScan, segmentHit,
      findSampleHit, findBlockageHit, checkPoint, distExample, sampleIdxs,
      Blockage.center, parseOSRMRoute, calculate_direct_route]
    simp
  exact ⟨rfl, by decide, hconf,
    exhaustion_flagged_success distExample
      (.single (parseOSRMRoute ⟨[(0, 0), (1, 1)], 5000, 600⟩))
      [⟨0, 0, 100, "b"⟩] rfl (by decide) hconf⟩

/-! ### Claim theorems: per-segment conflict detection -/

/-- Mapping a function that recovers the first component over a `filterMap`
yields a sublist of the first components. -/
theorem map_filterMap_sublist_map_fst
    (f : ℕ × Point × Point → Option ConflictPoint)
    (hf : ∀ x c, f x = some c → c.index = x.1) :
    ∀ l : List (ℕ × Point × Point),
      List.Sublist ((l.filterMap f).map ConflictPoint.index) (l.map Prod.fst)
  | [] => by simp
  | x :: xs => by
    rw [List.filterMap_cons, List.map_cons]
    cases h : f x with
    | none =>
      exact (map_filterMap_sublist_map_fst f hf xs).cons _
    | some c =>
      rw [List.map_cons, hf x c h]
      exact (map_filterMap_sublist_map_fst f hf xs).cons₂ _

/-- C3: for a path of ≥ 2 points and a non-empty blockage list, the report
is exactly the per-segment first-hit aggregation: each conflict entry is the
first hit of its segment (index, sample point, blockage, distance), each
segment yields at most one entry (indices strictly increase), a segment has
a hit iff one of the 5 samples at ratios `0, 1/4, 2/4, 3/4, 1` is within
`radius + 150` m of some blockage, the conflict length sums the **full**
lengths of the hit segments, and the total length sums all segments. -/
theorem conflict_detector_segment_spec (d : Dist) (route : List Point)
    (bs : List Blockage) (h2 : 2 ≤ route.length) (hbs : bs ≠ []) :
    (calculate_route_conflicts d route bs).conflict_points
        = (route.zip route.tail).enum.filterMap (fun x =>
            (segmentHit d bs x.2.1 x.2.2).map fun h =>
              (⟨x.1, h.1, h.2.1, h.2.2⟩ : ConflictPoint)) ∧
    (calculate_route_conflicts d route bs).total_length
        = ((route.zip route.tail).map fun s => d s.1 s.2).sum ∧
    (calculate_route_conflicts d route bs).conflict_length
        = (((route.zip route.tail).filter
              fun s => (segmentHit d bs s.1 s.2).isSome).map
            fun s => d s.1 s.2).sum ∧
    (∀ s ∈ route.zip route.tail,
      (segmentHit d bs s.1 s.2).isSome ↔
        ∃ j ∈ sampleIdxs, ∃ bl ∈ bs,
          d (checkPoint s.1 s.2 j) bl.center ≤ bl.radius + 150) ∧
    ((calculate_route_conflicts d route bs).conflict_points.map
        ConflictPoint.index).Pairwise (· < ·) := by
  have hroute : route ≠ [] := by
    intro h
    rw [h] at h2
    simp at h2
  have hguard : ¬ (route = [] ∨ bs = []) := by
    rintro (h | h)
    · exact hroute h
    · exact hbs h
  have hcp : (calculate_route_conflicts d route bs).conflict_points
      = (route.zip route.tail).enum.filterMap (fun x =>
          (segmentHit d bs x.2.1 x.2.2).map fun h =>
            (⟨x.1, h.1, h.2.1, h.2.2⟩ : ConflictPoint)) := by
    unfold calculate_route_conflicts
    rw [if_neg hguard]
    dsimp only
    rw [conflictScan_eq]
    rfl
  refine ⟨hcp, ?_, ?_, ?_, ?_⟩
  · unfold calculate_route_conflicts
    rw [if_neg hguard]
    dsimp only
    rw [conflictScan_eq]
  · unfold calculate_route_conflicts
    rw [if_neg hguard]
    dsimp only
    rw [conflictScan_eq]
  · intro s _
    exact segmentHit_isSome_iff d bs s.1 s.2
  · rw [hcp]
    have hsub := map_filterMap_sublist_map_fst
      (fun x => (segmentHit d bs x.2.1 x.2.2).map fun h =>
        (⟨x.1, h.1, h.2.1, h.2.2⟩ : ConflictPoint))
      (by
        intro x c hxc
        dsimp only at hxc
        cases h : segmentHit d bs x.2.1 x.2.2 with
        | none => rw [h] at hxc; exact Option.noConfusion hxc
        | some v =>
          rw [h] at hxc
          cases hxc with
          | refl => rfl)
      (route.zip route.tail).enum
    have hrange : ((route.zip route.tail).enum.map Prod.fst).Pairwise (· < ·) := by
      rw [List.enum_map_fst]
      exact List.pairwise_lt_range _
    exact hrange.sublist hsub

/-- Witness for C3: a two-point route through a 100 m blockage. -/
theorem conflict_detector_segment_spec_witness :
    2 ≤ ([(0, 0), (1, 1)] : List Point).length ∧
    ([⟨0, 0, 100, "b"⟩] : List Blockage) ≠ [] ∧
    ((calculate_route_conflicts distExample [(0, 0), (1, 1)]
        [⟨0, 0, 100, "b"⟩]).conflict_points
        = (([(0, 0), (1, 1)] : List Point).zip
            ([(0, 0), (1, 1)] : List Point).tail).enum.filterMap (fun x =>
            (segmentHit distExample [⟨0, 0, 100, "b"⟩] x.2.1 x.2.2).map fun h =>
              (⟨x.1, h.1, h.2.1, h.2.2⟩ : ConflictPoint)) ∧
    (calculate_route_conflicts distExample [(0, 0), (1, 1)]
        [⟨0, 0, 100, "b"⟩]).total_length
        = ((([(0, 0), (1, 1)] : List Point).zip
            ([(0, 0), (1, 1)] : List Point).tail).map
              fun s => distExample s.1 s.2).sum ∧
    (calculate_route_conflicts distExample [(0, 0), (1, 1)]
        [⟨0, 0, 100, "b"⟩]).conflict_length
        = (((([(0, 0), (1, 1)] : List Point).zip
              ([(0, 0), (1, 1)] : List Point).tail).filter
                fun s => (segmentHit distExample [⟨0, 0, 100, "b"⟩]
                  s.1 s.2).isSome).map
            fun s => distExample s.1 s.2).sum ∧
    (∀ s ∈ ([(0, 0), (1, 1)] : List Point).zip
        ([(0, 0), (1, 1)] : List Point).tail,
      (segmentHit distExample [⟨0, 0, 100, "b"⟩] s.1 s.2).isSome ↔
        ∃ j ∈ sampleIdxs, ∃ bl ∈ ([⟨0, 0, 100, "b"⟩] : List Blockage),
          distExample (checkPoint s.1 s.2 j) bl.center ≤ bl.radius + 150) ∧
    ((calculate_route_conflicts distExample [(0, 0), (1, 1)]
        [⟨0, 0, 100, "b"⟩]).conflict_points.map
        ConflictPoint.index).Pairwise (· < ·)) :=
  ⟨by decide, by decide,
    conflict_detector_segment_spec distExample [(0, 0), (1, 1)]
      [⟨0, 0, 100, "b"⟩] (by decide) (by decide)⟩

end RouteOpt
